import Mathlib

/-!
Shallow embedding of the three OpenStack Ansible modules of
dguerri/ansible-modules-extras:

* `src/cloud/openstack/os_keystone_service.py`  (namespace `OsKeystoneService`)
* `src/cloud/openstack/os_keystone_endpoint.py` (namespace `OsKeystoneEndpoint`)
* `src/cloud/openstack/heat.py`                 (namespace `Heat`)

Modelling conventions:

* The remote Keystone state reached through the `shade` cloud handle is a
  `Cloud` value: the list of services, the list of endpoints, and `nextId`,
  the next identifier the remote system would hand out for a created
  resource (identifiers are remote-generated; the modules never choose them).
* Every function that talks to the cloud returns the list of API calls it
  issued (`List ApiCall`, reads included) together with an
  `Except PyErr ...`: `Except.error` models a Python exception propagating
  out of the function.  In the source every `raise` happens before any
  create or delete call of the same function, so an `Except.error` result
  carries the unchanged cloud by construction; the call trace of the
  branch that raised is still recorded.
* Python `None` results are `Option.none`: in particular the
  `ensure_*_absent` functions return `Option Bool` because the source
  falls off the end of the function (returning `None`) after a delete.
* `module_report` models the shared `try/except` tail of both `main()`
  functions: on an exception, check mode exits with `changed=True` and a
  message while normal mode reports failure.  Python renders `KeyError`
  messages with surrounding quote characters; the rendering is elided
  here since nothing depends on message text beyond its presence.
-/

/-- A Keystone service as returned by `cloud.services.list()`. -/
structure Service where
  id : Nat
  name : String
  service_type : String
  description : String
deriving DecidableEq

/-- A Keystone endpoint as returned by `cloud.endpoints.list()`. -/
structure Endpoint where
  id : Nat
  service_id : Nat
  region : Option String
  publicurl : String
  internalurl : Option String
  adminurl : Option String
deriving DecidableEq

/-- The remote Keystone state reachable through the cloud handle.
`nextId` is the identifier the remote side would assign to the next
created resource. -/
structure Cloud where
  services : List Service
  endpoints : List Endpoint
  nextId : Nat
deriving DecidableEq

/-- The Python exceptions raised by the two Keystone modules. -/
inductive PyErr where
  | keyError (message : String)
  | valueError (message : String)
deriving DecidableEq

/-- The text interpolated by the source `"exception: %s" % e`. -/
def PyErr.msg : PyErr → String
  | PyErr.keyError m => m
  | PyErr.valueError m => m

/-- One call issued against the remote API, reads included. -/
inductive ApiCall where
  | listServices
  | listEndpoints
  | createService (name : String) (service_type : String) (description : String)
  | deleteService (id : Nat)
  | createEndpoint (service_id : Nat) (region : Option String)
      (publicurl : String) (internalurl : Option String) (adminurl : Option String)
  | deleteEndpoint (id : Nat)
deriving DecidableEq

/-- Whether an API call mutates the remote state. -/
def ApiCall.isMutating : ApiCall → Bool
  | ApiCall.listServices => false
  | ApiCall.listEndpoints => false
  | _ => true

/-- The mutating calls of a trace. -/
def mutating_calls (calls : List ApiCall) : List ApiCall :=
  calls.filter ApiCall.isMutating

/-- Whether a result is a propagating Python `ValueError`. -/
def isValueError {α : Type} : Except PyErr α → Bool
  | Except.error (PyErr.valueError _) => true
  | _ => false

/-- The terminal report of a module invocation: `module.exit_json` carrying
`changed` (`none` models JSON null), the optional `id`, and the optional
`msg`; or `module.fail_json` with a message. -/
inductive ModuleExit where
  | exitJson (changed : Option Bool) (id : Option Nat) (msg : Option String)
  | failJson (msg : String)
deriving DecidableEq

/-- Whether the module reported `failed=true`. -/
def ModuleExit.isFailed : ModuleExit → Bool
  | ModuleExit.failJson _ => true
  | _ => false

/-- The shared `try/except` tail of both Keystone `main()` functions:
a normal result is passed to `exit_json`; an exception becomes a
successful `exit_json(changed=True, msg=...)` in check mode and a
`fail_json` otherwise. -/
def module_report : Bool → Except PyErr (Option Bool × Option Nat) → ModuleExit
  | _, Except.ok (changed, i) => ModuleExit.exitJson changed i none
  | true, Except.error e => ModuleExit.exitJson (some true) none (some ("exception: " ++ e.msg))
  | false, Except.error e => ModuleExit.failJson ("exception: " ++ e.msg)

namespace OsKeystoneService

/-- Source `service_exists`: membership of the name among the listed
services (Python tests `service_name in [x.name for x in list]`). -/
def service_exists (cloud : Cloud) (service_name : String) : Bool :=
  cloud.services.any (fun x => x.name == service_name)

/-- Source `get_service`: branch on the number of name matches —
zero raises `KeyError`, more than one raises `ValueError`, otherwise the
unique match is returned. -/
def get_service (cloud : Cloud) (service_name : String) : Except PyErr Service :=
  match cloud.services.filter (fun x => x.name == service_name) with
  | [] => Except.error (PyErr.keyError ("No service with name " ++ service_name))
  | [s] => Except.ok s
  | l => Except.error (PyErr.valueError
      (toString l.length ++ " services with name " ++ service_name))

/-- Source `ensure_service_exists`: look the service up (one list call);
on `KeyError` fall through to the create path (short-circuited by check
mode), on success report `(False, id)`, and let any other exception —
the ambiguity `ValueError` — propagate. -/
def ensure_service_exists (cloud : Cloud)
    (service_name : String) (service_type : String) (service_description : String)
    (check_mode : Bool) : List ApiCall × Except PyErr (Cloud × Bool × Option Nat) :=
  match get_service cloud service_name with
  | Except.ok service => ([ApiCall.listServices], Except.ok (cloud, false, some service.id))
  | Except.error (PyErr.keyError _) =>
      if check_mode then
        ([ApiCall.listServices], Except.ok (cloud, true, none))
      else
        ([ApiCall.listServices, ApiCall.createService service_name service_type service_description],
         Except.ok
           ({ cloud with
                services := cloud.services ++
                  [⟨cloud.nextId, service_name, service_type, service_description⟩],
                nextId := cloud.nextId + 1 },
            true, some cloud.nextId))
  | Except.error e => ([ApiCall.listServices], Except.error e)

/-- Source `ensure_service_absent`: a bare existence pre-check (one list
call), a check-mode short-circuit, then a second lookup and the delete.
The delete branch falls off the end of the Python function, returning
`None`, not `True` — hence the `Option Bool`. -/
def ensure_service_absent (cloud : Cloud) (service_name : String) (check_mode : Bool) :
    List ApiCall × Except PyErr (Cloud × Option Bool) :=
  if !service_exists cloud service_name then
    ([ApiCall.listServices], Except.ok (cloud, some false))
  else if check_mode then
    ([ApiCall.listServices], Except.ok (cloud, some true))
  else
    match get_service cloud service_name with
    | Except.error e => ([ApiCall.listServices, ApiCall.listServices], Except.error e)
    | Except.ok service =>
        ([ApiCall.listServices, ApiCall.listServices, ApiCall.deleteService service.id],
         Except.ok
           ({ cloud with services := cloud.services.filter (fun x => x.id != service.id) },
            none))

/-- The try-block body of the source `main()`: cloud construction, then
dispatch on `state`.  The call trace of the attempt is returned alongside. -/
def service_attempt (cloud_result : Except PyErr Cloud)
    (service_name : String) (service_type : String) (service_description : String)
    (state : String) (check_mode : Bool) :
    List ApiCall × Except PyErr (Option Bool × Option Nat) :=
  match cloud_result with
  | Except.error e => ([], Except.error e)
  | Except.ok cloud =>
      if state == "present" then
        match ensure_service_exists cloud service_name service_type service_description check_mode with
        | (calls, Except.ok (_, changed, i)) => (calls, Except.ok (some changed, i))
        | (calls, Except.error e) => (calls, Except.error e)
      else if state == "absent" then
        match ensure_service_absent cloud service_name check_mode with
        | (calls, Except.ok (_, changed)) => (calls, Except.ok (changed, none))
        | (calls, Except.error e) => (calls, Except.error e)
      else ([], Except.error (PyErr.valueError ("Invalid state " ++ state)))

/-- Source `main()`: run the attempt and report through the shared
`try/except` tail. -/
def main (cloud_result : Except PyErr Cloud)
    (service_name : String) (service_type : String) (service_description : String)
    (state : String) (check_mode : Bool) : ModuleExit × List ApiCall :=
  (module_report check_mode
     (service_attempt cloud_result service_name service_type service_description state check_mode).2,
   (service_attempt cloud_result service_name service_type service_description state check_mode).1)

end OsKeystoneService

namespace OsKeystoneEndpoint

/-- Source `endpoint_match`: conjunctive attribute-equality over
service id, region and the three URLs. -/
def endpoint_match (endpoint : Endpoint) (service_id : Nat) (region : Option String)
    (public_url : String) (internal_url : Option String) (admin_url : Option String) : Bool :=
  endpoint.service_id == service_id &&
  endpoint.region == region &&
  endpoint.publicurl == public_url &&
  endpoint.internalurl == internal_url &&
  endpoint.adminurl == admin_url

/-- Source `get_service` of the endpoint module (same shape as the
service module's, with its own messages). -/
def get_service (cloud : Cloud) (service_name : String) : Except PyErr Service :=
  match cloud.services.filter (fun x => x.name == service_name) with
  | [] => Except.error (PyErr.keyError ("No keystone services with name " ++ service_name))
  | [s] => Except.ok s
  | l => Except.error (PyErr.valueError
      (toString l.length ++ " services with name " ++ service_name))

/-- Rendering of an optional URL or region in an error message (Python
interpolates `None` as the text None). -/
def optStr : Option String → String
  | none => "None"
  | some s => s

/-- Source `endpoint_exists`: Python `any(...)` over the filtered
endpoint list, i.e. non-emptiness of the matches. -/
def endpoint_exists (cloud : Cloud) (service_id : Nat) (region : Option String)
    (public_url : String) (internal_url : Option String) (admin_url : Option String) : Bool :=
  !(cloud.endpoints.filter
      (fun x => endpoint_match x service_id region public_url internal_url admin_url)).isEmpty

/-- Source `get_endpoint`: zero matches raise `KeyError`, several raise
`ValueError`, otherwise the unique match is returned. -/
def get_endpoint (cloud : Cloud) (service_id : Nat) (region : Option String)
    (public_url : String) (internal_url : Option String) (admin_url : Option String) :
    Except PyErr Endpoint :=
  match cloud.endpoints.filter
      (fun x => endpoint_match x service_id region public_url internal_url admin_url) with
  | [] => Except.error (PyErr.keyError
      ("No keystone endpoint with service id: " ++ toString service_id ++
       ", region: " ++ optStr region ++ ", public_url: " ++ public_url ++
       ", internal_url: " ++ optStr internal_url ++ ", admin_url: " ++ optStr admin_url))
  | [e] => Except.ok e
  | l => Except.error (PyErr.valueError
      (toString l.length ++ " services with service id: " ++ toString service_id ++
       ", region: " ++ optStr region ++ ", public_url: " ++ public_url ++
       ", internal_url: " ++ optStr internal_url ++ ", admin_url: " ++ optStr admin_url))

/-- Source `ensure_endpoint_exists`: resolve the service by name first
(outside any `try`, so its exceptions propagate), then look the endpoint
up, catching only `KeyError` to reach the create path. -/
def ensure_endpoint_exists (cloud : Cloud) (service_name : String) (region : Option String)
    (public_url : String) (internal_url : Option String) (admin_url : Option String)
    (check_mode : Bool) : List ApiCall × Except PyErr (Cloud × Bool × Option Nat) :=
  match get_service cloud service_name with
  | Except.error e => ([ApiCall.listServices], Except.error e)
  | Except.ok service =>
      match get_endpoint cloud service.id region public_url internal_url admin_url with
      | Except.ok endpoint =>
          ([ApiCall.listServices, ApiCall.listEndpoints],
           Except.ok (cloud, false, some endpoint.id))
      | Except.error (PyErr.keyError _) =>
          if check_mode then
            ([ApiCall.listServices, ApiCall.listEndpoints], Except.ok (cloud, true, none))
          else
            ([ApiCall.listServices, ApiCall.listEndpoints,
              ApiCall.createEndpoint service.id region public_url internal_url admin_url],
             Except.ok
               ({ cloud with
                    endpoints := cloud.endpoints ++
                      [⟨cloud.nextId, service.id, region, public_url, internal_url, admin_url⟩],
                    nextId := cloud.nextId + 1 },
                true, some cloud.nextId))
      | Except.error e =>
          ([ApiCall.listServices, ApiCall.listEndpoints], Except.error e)

/-- Source `ensure_endpoint_absent`: resolve the service by name first,
pre-check existence, short-circuit in check mode, then look the endpoint
up again and delete it.  The delete branch falls off the end of the
Python function, returning `None`. -/
def ensure_endpoint_absent (cloud : Cloud) (service_name : String) (region : Option String)
    (public_url : String) (internal_url : Option String) (admin_url : Option String)
    (check_mode : Bool) : List ApiCall × Except PyErr (Cloud × Option Bool) :=
  match get_service cloud service_name with
  | Except.error e => ([ApiCall.listServices], Except.error e)
  | Except.ok service =>
      if !endpoint_exists cloud service.id region public_url internal_url admin_url then
        ([ApiCall.listServices, ApiCall.listEndpoints], Except.ok (cloud, some false))
      else if check_mode then
        ([ApiCall.listServices, ApiCall.listEndpoints], Except.ok (cloud, some true))
      else
        match get_endpoint cloud service.id region public_url internal_url admin_url with
        | Except.error e =>
            ([ApiCall.listServices, ApiCall.listEndpoints, ApiCall.listEndpoints],
             Except.error e)
        | Except.ok endpoint =>
            ([ApiCall.listServices, ApiCall.listEndpoints, ApiCall.listEndpoints,
              ApiCall.deleteEndpoint endpoint.id],
             Except.ok
               ({ cloud with endpoints := cloud.endpoints.filter (fun x => x.id != endpoint.id) },
                none))

/-- The try-block body of the source `main()` of the endpoint module. -/
def endpoint_attempt (cloud_result : Except PyErr Cloud)
    (service_name : String) (region : Option String) (public_url : String)
    (internal_url : Option String) (admin_url : Option String)
    (state : String) (check_mode : Bool) :
    List ApiCall × Except PyErr (Option Bool × Option Nat) :=
  match cloud_result with
  | Except.error e => ([], Except.error e)
  | Except.ok cloud =>
      if state == "present" then
        match ensure_endpoint_exists cloud service_name region public_url internal_url
            admin_url check_mode with
        | (calls, Except.ok (_, changed, i)) => (calls, Except.ok (some changed, i))
        | (calls, Except.error e) => (calls, Except.error e)
      else if state == "absent" then
        match ensure_endpoint_absent cloud service_name region public_url internal_url
            admin_url check_mode with
        | (calls, Except.ok (_, changed)) => (calls, Except.ok (changed, none))
        | (calls, Except.error e) => (calls, Except.error e)
      else ([], Except.error (PyErr.valueError ("Invalid state " ++ state)))

/-- Source `main()` of the endpoint module. -/
def main (cloud_result : Except PyErr Cloud)
    (service_name : String) (region : Option String) (public_url : String)
    (internal_url : Option String) (admin_url : Option String)
    (state : String) (check_mode : Bool) : ModuleExit × List ApiCall :=
  (module_report check_mode
     (endpoint_attempt cloud_result service_name region public_url internal_url admin_url
        state check_mode).2,
   (endpoint_attempt cloud_result service_name region public_url internal_url admin_url
      state check_mode).1)

end OsKeystoneEndpoint

namespace Heat

/-- One scripted outcome of `heat.get(stack_name)` inside the polling
loop of source `stack_operation`: the lookup either raises (caught by
the bare `except`) or returns a stack with the given status string. -/
inductive PollResult where
  | raises
  | status (s : String)
deriving DecidableEq

/-- The final dictionary built by `stack_operation`: either
`dict(changed=True, output=...)` or `dict(failed=True, output=...)`. -/
inductive StackResult where
  | changedOutput (output : String)
  | failedOutput (output : String)
deriving DecidableEq

/-- The `while` loop of source `stack_operation`, driven by a script of
poll results; `existed` is the accumulator list that records a
sentinel for every successful lookup.  The second component collects
the durations of the `time.sleep(5)` calls in order; `none` means the
script ran out while the loop would keep polling. -/
def stack_operation_loop : List PollResult → String → List String →
    Option (StackResult × List Nat)
  | [], _, _ => none
  | PollResult.raises :: _, _, existed =>
      if existed.contains "yes" then
        some (StackResult.changedOutput "Stack Deleted", [])
      else
        some (StackResult.changedOutput "Stack Not Found", [])
  | PollResult.status s :: rest, operation, existed =>
      if operation ++ "_COMPLETE" == s then
        some (StackResult.changedOutput ("Stack " ++ operation ++ " complete"), [])
      else if operation ++ "_FAILED" == s then
        some (StackResult.failedOutput ("Stack " ++ operation ++ " failed"), [])
      else
        (stack_operation_loop rest operation ("yes" :: existed)).map
          (fun p => (p.1, 5 :: p.2))

/-- Source `stack_operation`: the loop starts with an empty `existed`
accumulator. -/
def stack_operation (script : List PollResult) (operation : String) :
    Option (StackResult × List Nat) :=
  stack_operation_loop script operation []

/-- One observable step of the module-level prologue of heat.py. -/
inductive HeatAction where
  | printed (msg : String)
  | proceedToMain
deriving DecidableEq

/-- Models lines 91-96 of heat.py plus the unconditional invocation of
`main()` at the bottom of the file: the four credentials are read from
the environment (`none` models an unset variable, which `os.getenv`
returns as `None`), a message is printed when the empty string is among
them, and in every case execution falls through to `main()` — the
source contains no exit, no `fail_json`, and no other guard between the
check and the resource work. -/
def heat_module_prologue (username : Option String) (password : Option String)
    (tenant_name : Option String) (auth_url : Option String) : List HeatAction :=
  (if [username, password, tenant_name, auth_url].contains (some "") then
     [HeatAction.printed "system environment variables are required for keystone authentication"]
   else []) ++ [HeatAction.proceedToMain]

end Heat

/-! Concrete fixtures used by witnesses and counterexamples. -/

/-- A glance service with identifier 1. -/
def svcG1 : Service := ⟨1, "glance", "image", "a"⟩

/-- A second, distinct service also named glance. -/
def svcG2 : Service := ⟨2, "glance", "image", "b"⟩

/-- A cloud holding two services with the same name. -/
def twoGlanceCloud : Cloud := ⟨[svcG1, svcG2], [], 3⟩

/-- A cloud holding exactly one glance service. -/
def oneGlanceCloud : Cloud := ⟨[svcG1], [], 2⟩

/-- A cloud with no resources at all. -/
def emptyCloud : Cloud := ⟨[], [], 1⟩

/-- An endpoint of service 1 in region aw1. -/
def epG : Endpoint := ⟨7, 1, some "aw1", "pub", none, none⟩

/-- A cloud holding one glance service and one matching endpoint. -/
def cloudGlanceEp : Cloud := ⟨[svcG1], [epG], 8⟩

/-- A cloud holding one glance service and no endpoints. -/
def cloudGlanceNoEp : Cloud := ⟨[svcG1], [], 9⟩

/-- A first duplicate endpoint of service 1. -/
def epA : Endpoint := ⟨11, 1, some "aw1", "pub", none, none⟩

/-- A second endpoint with the same attributes and a different identifier. -/
def epB : Endpoint := ⟨12, 1, some "aw1", "pub", none, none⟩

/-- A cloud holding one glance service and two attribute-identical endpoints. -/
def twoEpCloud : Cloud := ⟨[svcG1], [epA, epB], 13⟩

/-! Helper lemmas. -/

/-- A list `any` is the emptiness test of the corresponding `filter`. -/
theorem any_eq_not_isEmpty_filter {α : Type} (l : List α) (p : α → Bool) :
    l.any p = !(l.filter p).isEmpty := by
  induction l with
  | nil => rfl
  | cons a t ih =>
      cases h : p a <;> simp [List.any_cons, List.filter_cons, h, ih]

/-- In check mode the report tail never produces `fail_json`, whatever
the attempt did. -/
theorem module_report_check_not_failed (a : Except PyErr (Option Bool × Option Nat)) :
    (module_report true a).isFailed = false := by
  rcases a with e | v
  · rfl
  · obtain ⟨c, i⟩ := v
    rfl

namespace OsKeystoneService

/-- `service_exists` is the non-emptiness of the name-filtered list. -/
theorem service_exists_eq (cloud : Cloud) (n : String) :
    service_exists cloud n = !(cloud.services.filter (fun x => x.name == n)).isEmpty :=
  any_eq_not_isEmpty_filter _ _

/-- `get_service` on zero name matches raises `KeyError`. -/
theorem service_get_nil (cloud : Cloud) (n : String)
    (h : cloud.services.filter (fun x => x.name == n) = []) :
    get_service cloud n = Except.error (PyErr.keyError ("No service with name " ++ n)) := by
  unfold get_service
  rw [h]

/-- `get_service` on a unique name match returns it. -/
theorem service_get_one (cloud : Cloud) (n : String) (svc : Service)
    (h : cloud.services.filter (fun x => x.name == n) = [svc]) :
    get_service cloud n = Except.ok svc := by
  unfold get_service
  rw [h]

/-- `get_service` on two or more name matches raises `ValueError`. -/
theorem service_get_two (cloud : Cloud) (n : String) (s1 s2 : Service) (rest : List Service)
    (h : cloud.services.filter (fun x => x.name == n) = s1 :: s2 :: rest) :
    get_service cloud n = Except.error (PyErr.valueError
      (toString (s1 :: s2 :: rest : List Service).length ++ " services with name " ++ n)) := by
  unfold get_service
  rw [h]

/-- `ensure_service_exists` on zero matches: non-check mode issues one
create after the lookup and reports the fresh identifier; check mode
stops after the lookup and reports a null identifier. -/
theorem ensure_service_exists_of_missing (cloud : Cloud) (n t d : String)
    (h : cloud.services.filter (fun x => x.name == n) = []) :
    ensure_service_exists cloud n t d false
      = ([ApiCall.listServices, ApiCall.createService n t d],
         Except.ok
           ({ cloud with
                services := cloud.services ++ [⟨cloud.nextId, n, t, d⟩],
                nextId := cloud.nextId + 1 },
            true, some cloud.nextId))
    ∧ ensure_service_exists cloud n t d true
      = ([ApiCall.listServices], Except.ok (cloud, true, none)) := by
  have hg := service_get_nil cloud n h
  constructor <;> simp [ensure_service_exists, hg]

/-- `ensure_service_exists` on a unique match reports it unchanged. -/
theorem ensure_service_exists_of_found (cloud : Cloud) (n t d : String) (cm : Bool)
    (svc : Service) (h : cloud.services.filter (fun x => x.name == n) = [svc]) :
    ensure_service_exists cloud n t d cm
      = ([ApiCall.listServices], Except.ok (cloud, false, some svc.id)) := by
  have hg := service_get_one cloud n svc h
  simp [ensure_service_exists, hg]

/-- `ensure_service_exists` on two or more matches propagates the
`ValueError`, in either mode, after the single lookup. -/
theorem ensure_service_exists_of_ambiguous (cloud : Cloud) (n t d : String) (cm : Bool)
    (s1 s2 : Service) (rest : List Service)
    (h : cloud.services.filter (fun x => x.name == n) = s1 :: s2 :: rest) :
    ensure_service_exists cloud n t d cm
      = ([ApiCall.listServices],
         Except.error (PyErr.valueError
           (toString (s1 :: s2 :: rest : List Service).length ++ " services with name " ++ n))) := by
  have hg := service_get_two cloud n s1 s2 rest h
  simp [ensure_service_exists, hg]

/-- `ensure_service_absent` on zero matches reports no change after the
single existence lookup, in either mode. -/
theorem ensure_service_absent_of_missing (cloud : Cloud) (n : String) (cm : Bool)
    (h : cloud.services.filter (fun x => x.name == n) = []) :
    ensure_service_absent cloud n cm = ([ApiCall.listServices], Except.ok (cloud, some false)) := by
  simp [ensure_service_absent, service_exists_eq, h]

/-- `ensure_service_absent` in check mode on two or more matches — the
duplicate-blind path: the bare existence pre-check succeeds and the
function returns changed without ever running the ambiguity check. -/
theorem ensure_service_absent_ambiguous_check (cloud : Cloud) (n : String)
    (s1 s2 : Service) (rest : List Service)
    (h : cloud.services.filter (fun x => x.name == n) = s1 :: s2 :: rest) :
    ensure_service_absent cloud n true = ([ApiCall.listServices], Except.ok (cloud, some true)) := by
  simp [ensure_service_absent, service_exists_eq, h]

/-- `ensure_service_absent` in normal mode on two or more matches: the
second lookup raises `ValueError` before any delete. -/
theorem ensure_service_absent_ambiguous_nocheck (cloud : Cloud) (n : String)
    (s1 s2 : Service) (rest : List Service)
    (h : cloud.services.filter (fun x => x.name == n) = s1 :: s2 :: rest) :
    ensure_service_absent cloud n false
      = ([ApiCall.listServices, ApiCall.listServices],
         Except.error (PyErr.valueError
           (toString (s1 :: s2 :: rest : List Service).length ++ " services with name " ++ n))) := by
  have hg := service_get_two cloud n s1 s2 rest h
  simp [ensure_service_absent, service_exists_eq, h, hg]

end OsKeystoneService

namespace OsKeystoneEndpoint

/-- Endpoint-module `get_service` on zero name matches raises `KeyError`. -/
theorem ep_get_service_nil (cloud : Cloud) (n : String)
    (h : cloud.services.filter (fun x => x.name == n) = []) :
    get_service cloud n
      = Except.error (PyErr.keyError ("No keystone services with name " ++ n)) := by
  unfold get_service
  rw [h]

/-- Endpoint-module `get_service` on a unique name match returns it. -/
theorem ep_get_service_one (cloud : Cloud) (n : String) (svc : Service)
    (h : cloud.services.filter (fun x => x.name == n) = [svc]) :
    get_service cloud n = Except.ok svc := by
  unfold get_service
  rw [h]

/-- `get_endpoint` on zero matches raises `KeyError`. -/
theorem ep_get_endpoint_nil (cloud : Cloud) (sid : Nat) (r : Option String) (pu : String)
    (iu au : Option String)
    (h : cloud.endpoints.filter (fun x => endpoint_match x sid r pu iu au) = []) :
    get_endpoint cloud sid r pu iu au
      = Except.error (PyErr.keyError
          ("No keystone endpoint with service id: " ++ toString sid ++
           ", region: " ++ optStr r ++ ", public_url: " ++ pu ++
           ", internal_url: " ++ optStr iu ++ ", admin_url: " ++ optStr au)) := by
  unfold get_endpoint
  rw [h]

/-- `get_endpoint` on a unique match returns it. -/
theorem ep_get_endpoint_one (cloud : Cloud) (sid : Nat) (r : Option String) (pu : String)
    (iu au : Option String) (ep : Endpoint)
    (h : cloud.endpoints.filter (fun x => endpoint_match x sid r pu iu au) = [ep]) :
    get_endpoint cloud sid r pu iu au = Except.ok ep := by
  unfold get_endpoint
  rw [h]

/-- `get_endpoint` on two or more matches raises `ValueError`. -/
theorem ep_get_endpoint_two (cloud : Cloud) (sid : Nat) (r : Option String) (pu : String)
    (iu au : Option String) (e1 e2 : Endpoint) (rest : List Endpoint)
    (h : cloud.endpoints.filter (fun x => endpoint_match x sid r pu iu au) = e1 :: e2 :: rest) :
    get_endpoint cloud sid r pu iu au
      = Except.error (PyErr.valueError
          (toString (e1 :: e2 :: rest : List Endpoint).length ++ " services with service id: " ++
           toString sid ++ ", region: " ++ optStr r ++ ", public_url: " ++ pu ++
           ", internal_url: " ++ optStr iu ++ ", admin_url: " ++ optStr au)) := by
  unfold get_endpoint
  rw [h]

/-- `ensure_endpoint_exists` on a resolved service and zero endpoint
matches: non-check mode issues one create after the two lookups and
reports the fresh identifier; check mode stops after the lookups. -/
theorem ensure_endpoint_exists_of_missing (cloud : Cloud) (sn : String) (r : Option String)
    (pu : String) (iu au : Option String) (svc : Service)
    (h1 : cloud.services.filter (fun x => x.name == sn) = [svc])
    (h2 : cloud.endpoints.filter (fun x => endpoint_match x svc.id r pu iu au) = []) :
    ensure_endpoint_exists cloud sn r pu iu au false
      = ([ApiCall.listServices, ApiCall.listEndpoints,
          ApiCall.createEndpoint svc.id r pu iu au],
         Except.ok
           ({ cloud with
                endpoints := cloud.endpoints ++ [⟨cloud.nextId, svc.id, r, pu, iu, au⟩],
                nextId := cloud.nextId + 1 },
            true, some cloud.nextId))
    ∧ ensure_endpoint_exists cloud sn r pu iu au true
      = ([ApiCall.listServices, ApiCall.listEndpoints], Except.ok (cloud, true, none)) := by
  have hg1 := ep_get_service_one cloud sn svc h1
  have hg2 := ep_get_endpoint_nil cloud svc.id r pu iu au h2
  constructor <;> simp [ensure_endpoint_exists, hg1, hg2]

/-- `ensure_endpoint_exists` on a unique endpoint match reports it
unchanged, in either mode. -/
theorem ensure_endpoint_exists_of_found (cloud : Cloud) (sn : String) (r : Option String)
    (pu : String) (iu au : Option String) (cm : Bool) (svc : Service) (ep : Endpoint)
    (h1 : cloud.services.filter (fun x => x.name == sn) = [svc])
    (h2 : cloud.endpoints.filter (fun x => endpoint_match x svc.id r pu iu au) = [ep]) :
    ensure_endpoint_exists cloud sn r pu iu au cm
      = ([ApiCall.listServices, ApiCall.listEndpoints],
         Except.ok (cloud, false, some ep.id)) := by
  have hg1 := ep_get_service_one cloud sn svc h1
  have hg2 := ep_get_endpoint_one cloud svc.id r pu iu au ep h2
  simp [ensure_endpoint_exists, hg1, hg2]

/-- `ensure_endpoint_exists` on two or more endpoint matches propagates
the `ValueError`, in either mode, after the two lookups. -/
theorem ensure_endpoint_exists_of_ambiguous (cloud : Cloud) (sn : String) (r : Option String)
    (pu : String) (iu au : Option String) (cm : Bool) (svc : Service)
    (e1 e2 : Endpoint) (rest : List Endpoint)
    (h1 : cloud.services.filter (fun x => x.name == sn) = [svc])
    (h2 : cloud.endpoints.filter (fun x => endpoint_match x svc.id r pu iu au) = e1 :: e2 :: rest) :
    (ensure_endpoint_exists cloud sn r pu iu au cm).1
        = [ApiCall.listServices, ApiCall.listEndpoints]
    ∧ isValueError (ensure_endpoint_exists cloud sn r pu iu au cm).2 = true := by
  have hg1 := ep_get_service_one cloud sn svc h1
  have hg2 := ep_get_endpoint_two cloud svc.id r pu iu au e1 e2 rest h2
  constructor <;> simp [ensure_endpoint_exists, hg1, hg2, isValueError]

/-- `ensure_endpoint_absent` in check mode on two or more matches — the
duplicate-blind path: the existence pre-check succeeds and the function
returns changed without ever running the ambiguity check. -/
theorem ensure_endpoint_absent_ambiguous_check (cloud : Cloud) (sn : String) (r : Option String)
    (pu : String) (iu au : Option String) (svc : Service)
    (e1 e2 : Endpoint) (rest : List Endpoint)
    (h1 : cloud.services.filter (fun x => x.name == sn) = [svc])
    (h2 : cloud.endpoints.filter (fun x => endpoint_match x svc.id r pu iu au) = e1 :: e2 :: rest) :
    ensure_endpoint_absent cloud sn r pu iu au true
      = ([ApiCall.listServices, ApiCall.listEndpoints], Except.ok (cloud, some true)) := by
  have hg1 := ep_get_service_one cloud sn svc h1
  simp [ensure_endpoint_absent, endpoint_exists, hg1, h2]

/-- `ensure_endpoint_absent` in normal mode on two or more matches: the
second endpoint lookup raises `ValueError` before any delete. -/
theorem ensure_endpoint_absent_ambiguous_nocheck (cloud : Cloud) (sn : String) (r : Option String)
    (pu : String) (iu au : Option String) (svc : Service)
    (e1 e2 : Endpoint) (rest : List Endpoint)
    (h1 : cloud.services.filter (fun x => x.name == sn) = [svc])
    (h2 : cloud.endpoints.filter (fun x => endpoint_match x svc.id r pu iu au) = e1 :: e2 :: rest) :
    (ensure_endpoint_absent cloud sn r pu iu au false).1
        = [ApiCall.listServices, ApiCall.listEndpoints, ApiCall.listEndpoints]
    ∧ isValueError (ensure_endpoint_absent cloud sn r pu iu au false).2 = true := by
  have hg1 := ep_get_service_one cloud sn svc h1
  have hg2 := ep_get_endpoint_two cloud svc.id r pu iu au e1 e2 rest h2
  constructor <;> simp [ensure_endpoint_absent, endpoint_exists, hg1, h2, hg2, isValueError]

end OsKeystoneEndpoint

/-! The claims. -/

/-- C1 counterexample: with two services named glance the absent path in
check mode does not fail with the ambiguity `ValueError` — the bare
existence pre-check succeeds and the function returns changed without
ever reaching the ambiguity check. -/
theorem claim_C1_counterexample :
    OsKeystoneService.ensure_service_absent twoGlanceCloud "glance" true
      = ([ApiCall.listServices], Except.ok (twoGlanceCloud, some true))
  ∧ isValueError (OsKeystoneService.ensure_service_absent twoGlanceCloud "glance" true).2
      = false :=
  ⟨rfl, rfl⟩

/-- C1 as amended: on a descriptor with two or more remote matches the
present path (`ensure_service_exists` / `ensure_endpoint_exists`) fails
with `ValueError` in both modes, and the absent path fails with
`ValueError` when check mode is off; in every one of those cases the
trace holds only list calls, never a create or delete.  In check mode,
however, the absent path returns `changed=true` without raising — the
ambiguity goes undetected — and still issues no mutating call. -/
theorem claim_C1_amended
    (cloud : Cloud) (n t d : String) (cm : Bool) (s1 s2 : Service) (srest : List Service)
    (cloud2 : Cloud) (sn : String) (region : Option String) (pu : String)
    (iu au : Option String) (cm2 : Bool) (svc : Service) (e1 e2 : Endpoint)
    (erest : List Endpoint)
    (h : cloud.services.filter (fun x => x.name == n) = s1 :: s2 :: srest)
    (h1 : cloud2.services.filter (fun x => x.name == sn) = [svc])
    (h2 : cloud2.endpoints.filter
        (fun x => OsKeystoneEndpoint.endpoint_match x svc.id region pu iu au)
        = e1 :: e2 :: erest) :
    isValueError (OsKeystoneService.ensure_service_exists cloud n t d cm).2 = true
  ∧ (OsKeystoneService.ensure_service_exists cloud n t d cm).1 = [ApiCall.listServices]
  ∧ isValueError (OsKeystoneEndpoint.ensure_endpoint_exists cloud2 sn region pu iu au cm2).2
      = true
  ∧ (OsKeystoneEndpoint.ensure_endpoint_exists cloud2 sn region pu iu au cm2).1
      = [ApiCall.listServices, ApiCall.listEndpoints]
  ∧ isValueError (OsKeystoneService.ensure_service_absent cloud n false).2 = true
  ∧ (OsKeystoneService.ensure_service_absent cloud n false).1
      = [ApiCall.listServices, ApiCall.listServices]
  ∧ isValueError (OsKeystoneEndpoint.ensure_endpoint_absent cloud2 sn region pu iu au false).2
      = true
  ∧ (OsKeystoneEndpoint.ensure_endpoint_absent cloud2 sn region pu iu au false).1
      = [ApiCall.listServices, ApiCall.listEndpoints, ApiCall.listEndpoints]
  ∧ OsKeystoneService.ensure_service_absent cloud n true
      = ([ApiCall.listServices], Except.ok (cloud, some true))
  ∧ OsKeystoneEndpoint.ensure_endpoint_absent cloud2 sn region pu iu au true
      = ([ApiCall.listServices, ApiCall.listEndpoints], Except.ok (cloud2, some true)) := by
  have hse := OsKeystoneService.ensure_service_exists_of_ambiguous cloud n t d cm s1 s2 srest h
  have hee := OsKeystoneEndpoint.ensure_endpoint_exists_of_ambiguous cloud2 sn region pu iu au
    cm2 svc e1 e2 erest h1 h2
  have hsa := OsKeystoneService.ensure_service_absent_ambiguous_nocheck cloud n s1 s2 srest h
  have hea := OsKeystoneEndpoint.ensure_endpoint_absent_ambiguous_nocheck cloud2 sn region pu
    iu au svc e1 e2 erest h1 h2
  refine ⟨?_, ?_, hee.2, hee.1, ?_, ?_, hea.2, hea.1,
    OsKeystoneService.ensure_service_absent_ambiguous_check cloud n s1 s2 srest h,
    OsKeystoneEndpoint.ensure_endpoint_absent_ambiguous_check cloud2 sn region pu iu au svc
      e1 e2 erest h1 h2⟩
  · simp [hse, isValueError]
  · simp [hse]
  · simp [hsa, isValueError]
  · simp [hsa]

/-- C1 witness: the amended claim at a cloud with two glance services and
a cloud with two attribute-identical endpoints. -/
theorem claim_C1_witness :
    isValueError (OsKeystoneService.ensure_service_exists twoGlanceCloud "glance" "image" "d" true).2 = true
  ∧ (OsKeystoneService.ensure_service_exists twoGlanceCloud "glance" "image" "d" true).1
      = [ApiCall.listServices]
  ∧ isValueError (OsKeystoneEndpoint.ensure_endpoint_exists twoEpCloud "glance" (some "aw1") "pub" none none true).2 = true
  ∧ (OsKeystoneEndpoint.ensure_endpoint_exists twoEpCloud "glance" (some "aw1") "pub" none none true).1
      = [ApiCall.listServices, ApiCall.listEndpoints]
  ∧ isValueError (OsKeystoneService.ensure_service_absent twoGlanceCloud "glance" false).2 = true
  ∧ (OsKeystoneService.ensure_service_absent twoGlanceCloud "glance" false).1
      = [ApiCall.listServices, ApiCall.listServices]
  ∧ isValueError (OsKeystoneEndpoint.ensure_endpoint_absent twoEpCloud "glance" (some "aw1") "pub" none none false).2 = true
  ∧ (OsKeystoneEndpoint.ensure_endpoint_absent twoEpCloud "glance" (some "aw1") "pub" none none false).1
      = [ApiCall.listServices, ApiCall.listEndpoints, ApiCall.listEndpoints]
  ∧ OsKeystoneService.ensure_service_absent twoGlanceCloud "glance" true
      = ([ApiCall.listServices], Except.ok (twoGlanceCloud, some true))
  ∧ OsKeystoneEndpoint.ensure_endpoint_absent twoEpCloud "glance" (some "aw1") "pub" none none true
      = ([ApiCall.listServices, ApiCall.listEndpoints], Except.ok (twoEpCloud, some true)) :=
  claim_C1_amended twoGlanceCloud "glance" "image" "d" true svcG1 svcG2 []
    twoEpCloud "glance" (some "aw1") "pub" none none true svcG1 epA epB []
    (by rfl) (by rfl) (by rfl)

/-- C2: evaluation at the failing input.  With exactly one match and
check mode off, both absent functions issue exactly one delete call, but
the changed result is `none` — the Python functions fall off the end
after the delete and return `None`, contradicting their own docstrings
and the claim's `changed=true`.  The zero-match halves of the claim do
hold: `some false` with no delete call. -/
theorem claim_C2_bug :
    OsKeystoneService.ensure_service_absent oneGlanceCloud "glance" false
      = ([ApiCall.listServices, ApiCall.listServices, ApiCall.deleteService 1],
         Except.ok ((⟨[], [], 2⟩ : Cloud), none))
  ∧ OsKeystoneService.ensure_service_absent emptyCloud "glance" false
      = ([ApiCall.listServices], Except.ok (emptyCloud, some false))
  ∧ OsKeystoneEndpoint.ensure_endpoint_absent cloudGlanceEp "glance" (some "aw1") "pub" none none false
      = ([ApiCall.listServices, ApiCall.listEndpoints, ApiCall.listEndpoints,
          ApiCall.deleteEndpoint 7],
         Except.ok ((⟨[svcG1], [], 8⟩ : Cloud), none))
  ∧ OsKeystoneEndpoint.ensure_endpoint_absent cloudGlanceNoEp "glance" (some "aw1") "pub" none none false
      = ([ApiCall.listServices, ApiCall.listEndpoints], Except.ok (cloudGlanceNoEp, some false)) :=
  ⟨rfl, rfl, rfl, rfl⟩

/-- C3 counterexample: a DELETE operation whose lookup raises on the very
first poll yields the outcome Stack Not Found, not the claimed success
outcome Stack Deleted — the loop branches on whether a prior poll
succeeded, never on the operation. -/
theorem claim_C3_counterexample :
    Heat.stack_operation [Heat.PollResult.raises] "DELETE"
      = some (Heat.StackResult.changedOutput "Stack Not Found", [])
  ∧ Heat.StackResult.changedOutput "Stack Not Found"
      ≠ Heat.StackResult.changedOutput "Stack Deleted" :=
  ⟨rfl, by decide⟩

/-- C3 as amended: when the lookup raises, the outcome is determined by
whether any prior poll succeeded, not by the operation: a raise on the
very first poll yields Stack Not Found for every operation (DELETE
included), and a raise after at least one successful poll — equivalently
with the sentinel already recorded — yields Stack Deleted for every
operation (CREATE included). -/
theorem claim_C3_amended
    (op s : String) (rest : List Heat.PollResult) (existed : List String) :
    Heat.stack_operation (Heat.PollResult.raises :: rest) op
      = some (Heat.StackResult.changedOutput "Stack Not Found", [])
  ∧ ((op ++ "_COMPLETE" == s) = false → (op ++ "_FAILED" == s) = false →
      Heat.stack_operation (Heat.PollResult.status s :: Heat.PollResult.raises :: rest) op
        = some (Heat.StackResult.changedOutput "Stack Deleted", [5]))
  ∧ (existed.contains "yes" = true →
      Heat.stack_operation_loop (Heat.PollResult.raises :: rest) op existed
        = some (Heat.StackResult.changedOutput "Stack Deleted", [])) := by
  refine ⟨rfl, ?_, ?_⟩
  · intro hc hf
    simp [Heat.stack_operation, Heat.stack_operation_loop, hc, hf]
  · intro hy
    have hym : "yes" ∈ existed := by simpa using hy
    simp [Heat.stack_operation_loop, hym]

/-- C3 witness: the amended claim at concrete scripts — CREATE raising on
the first poll, and DELETE raising right after one successful pending
poll. -/
theorem claim_C3_witness :
    Heat.stack_operation [Heat.PollResult.raises] "CREATE"
      = some (Heat.StackResult.changedOutput "Stack Not Found", [])
  ∧ Heat.stack_operation [Heat.PollResult.status "PENDING", Heat.PollResult.raises] "DELETE"
      = some (Heat.StackResult.changedOutput "Stack Deleted", [5])
  ∧ Heat.stack_operation_loop [Heat.PollResult.raises] "DELETE" ["yes"]
      = some (Heat.StackResult.changedOutput "Stack Deleted", []) :=
  ⟨(claim_C3_amended "CREATE" "x" [] []).1,
   (claim_C3_amended "DELETE" "PENDING" [] []).2.1 (by decide) (by decide),
   (claim_C3_amended "DELETE" "x" [] ["yes"]).2.2 (by decide)⟩

/-- C4: on a descriptor with zero remote matches, the present path with
check mode off issues exactly one create after the lookups and returns
changed with the fresh identifier; with check mode on it still performs
the lookups (the trace holds the list calls) but issues no create and
returns changed with a null identifier.  Stated for the service module
and, given a uniquely resolved service, the endpoint module. -/
theorem claim_C4
    (cloud : Cloud) (n t d : String)
    (cloud2 : Cloud) (sn : String) (region : Option String) (pu : String)
    (iu au : Option String) (svc : Service)
    (hs : cloud.services.filter (fun x => x.name == n) = [])
    (h1 : cloud2.services.filter (fun x => x.name == sn) = [svc])
    (h2 : cloud2.endpoints.filter
        (fun x => OsKeystoneEndpoint.endpoint_match x svc.id region pu iu au) = []) :
    OsKeystoneService.ensure_service_exists cloud n t d false
      = ([ApiCall.listServices, ApiCall.createService n t d],
         Except.ok
           ({ cloud with
                services := cloud.services ++ [⟨cloud.nextId, n, t, d⟩],
                nextId := cloud.nextId + 1 },
            true, some cloud.nextId))
  ∧ OsKeystoneService.ensure_service_exists cloud n t d true
      = ([ApiCall.listServices], Except.ok (cloud, true, none))
  ∧ OsKeystoneEndpoint.ensure_endpoint_exists cloud2 sn region pu iu au false
      = ([ApiCall.listServices, ApiCall.listEndpoints,
          ApiCall.createEndpoint svc.id region pu iu au],
         Except.ok
           ({ cloud2 with
                endpoints := cloud2.endpoints ++ [⟨cloud2.nextId, svc.id, region, pu, iu, au⟩],
                nextId := cloud2.nextId + 1 },
            true, some cloud2.nextId))
  ∧ OsKeystoneEndpoint.ensure_endpoint_exists cloud2 sn region pu iu au true
      = ([ApiCall.listServices, ApiCall.listEndpoints], Except.ok (cloud2, true, none)) := by
  obtain ⟨hA, hB⟩ := OsKeystoneService.ensure_service_exists_of_missing cloud n t d hs
  obtain ⟨hC, hD⟩ :=
    OsKeystoneEndpoint.ensure_endpoint_exists_of_missing cloud2 sn region pu iu au svc h1 h2
  exact ⟨hA, hB, hC, hD⟩

/-- C4 witness: the claim at an empty cloud (service) and at a cloud
holding one glance service and no endpoints (endpoint). -/
theorem claim_C4_witness :
    OsKeystoneService.ensure_service_exists emptyCloud "glance" "image" "x" false
      = ([ApiCall.listServices, ApiCall.createService "glance" "image" "x"],
         Except.ok ((⟨[⟨1, "glance", "image", "x"⟩], [], 2⟩ : Cloud), true, some 1))
  ∧ OsKeystoneService.ensure_service_exists emptyCloud "glance" "image" "x" true
      = ([ApiCall.listServices], Except.ok (emptyCloud, true, none))
  ∧ OsKeystoneEndpoint.ensure_endpoint_exists cloudGlanceNoEp "glance" (some "aw1") "pub" none none false
      = ([ApiCall.listServices, ApiCall.listEndpoints,
          ApiCall.createEndpoint 1 (some "aw1") "pub" none none],
         Except.ok ((⟨[svcG1], [⟨9, 1, some "aw1", "pub", none, none⟩], 10⟩ : Cloud),
                    true, some 9))
  ∧ OsKeystoneEndpoint.ensure_endpoint_exists cloudGlanceNoEp "glance" (some "aw1") "pub" none none true
      = ([ApiCall.listServices, ApiCall.listEndpoints],
         Except.ok (cloudGlanceNoEp, true, none)) :=
  claim_C4 emptyCloud "glance" "image" "x" cloudGlanceNoEp "glance" (some "aw1") "pub"
    none none svcG1 (by rfl) (by rfl) (by rfl)

/-- C6: on a descriptor with exactly one remote match, the present path
returns unchanged with the existing identifier in either mode, and its
trace holds only the list calls — no create.  The third conjunct pins
the match predicate down as conjunctive attribute-equality over all the
endpoint fields (the service predicate, name equality, is the filter in
the hypotheses). -/
theorem claim_C6
    (cloud : Cloud) (n t d : String) (cm : Bool) (svc : Service)
    (cloud2 : Cloud) (sn : String) (region : Option String) (pu : String)
    (iu au : Option String) (cm2 : Bool) (svc2 : Service) (ep : Endpoint)
    (h : cloud.services.filter (fun x => x.name == n) = [svc])
    (h1 : cloud2.services.filter (fun x => x.name == sn) = [svc2])
    (h2 : cloud2.endpoints.filter
        (fun x => OsKeystoneEndpoint.endpoint_match x svc2.id region pu iu au) = [ep]) :
    OsKeystoneService.ensure_service_exists cloud n t d cm
      = ([ApiCall.listServices], Except.ok (cloud, false, some svc.id))
  ∧ OsKeystoneEndpoint.ensure_endpoint_exists cloud2 sn region pu iu au cm2
      = ([ApiCall.listServices, ApiCall.listEndpoints], Except.ok (cloud2, false, some ep.id))
  ∧ (∀ (e : Endpoint) (si : Nat) (r : Option String) (p : String) (i a : Option String),
       OsKeystoneEndpoint.endpoint_match e si r p i a = true ↔
         e.service_id = si ∧ e.region = r ∧ e.publicurl = p ∧
         e.internalurl = i ∧ e.adminurl = a) := by
  refine ⟨OsKeystoneService.ensure_service_exists_of_found cloud n t d cm svc h,
    OsKeystoneEndpoint.ensure_endpoint_exists_of_found cloud2 sn region pu iu au cm2
      svc2 ep h1 h2, ?_⟩
  intro e si r p i a
  simp [OsKeystoneEndpoint.endpoint_match, and_assoc]

/-- C6 witness: the claim at a cloud with one glance service and at a
cloud with one matching endpoint. -/
theorem claim_C6_witness :
    OsKeystoneService.ensure_service_exists oneGlanceCloud "glance" "image" "d" true
      = ([ApiCall.listServices], Except.ok (oneGlanceCloud, false, some 1))
  ∧ OsKeystoneEndpoint.ensure_endpoint_exists cloudGlanceEp "glance" (some "aw1") "pub" none none false
      = ([ApiCall.listServices, ApiCall.listEndpoints],
         Except.ok (cloudGlanceEp, false, some 7)) :=
  ⟨(claim_C6 oneGlanceCloud "glance" "image" "d" true svcG1 cloudGlanceEp "glance"
      (some "aw1") "pub" none none false svcG1 epG (by rfl) (by rfl) (by rfl)).1,
   (claim_C6 oneGlanceCloud "glance" "image" "d" true svcG1 cloudGlanceEp "glance"
      (some "aw1") "pub" none none false svcG1 epG (by rfl) (by rfl) (by rfl)).2.1⟩

/-- C7: from a cloud with zero matches, running `ensure_service_exists`
twice with the identical descriptor and check mode off yields changed
with some identifier on the first call — which issues the single create
— and unchanged with the very same identifier on the second, which
issues none. -/
theorem claim_C7 (cloud : Cloud) (n t d : String)
    (h : cloud.services.filter (fun x => x.name == n) = []) :
    ∃ (cloud2 : Cloud) (i : Nat),
      OsKeystoneService.ensure_service_exists cloud n t d false
        = ([ApiCall.listServices, ApiCall.createService n t d],
           Except.ok (cloud2, true, some i))
    ∧ OsKeystoneService.ensure_service_exists cloud2 n t d false
        = ([ApiCall.listServices], Except.ok (cloud2, false, some i)) := by
  obtain ⟨hA, _⟩ := OsKeystoneService.ensure_service_exists_of_missing cloud n t d h
  refine ⟨_, cloud.nextId, hA, ?_⟩
  apply OsKeystoneService.ensure_service_exists_of_found _ n t d false ⟨cloud.nextId, n, t, d⟩
  simp [List.filter_append, List.filter_cons, h]

/-- C7 witness: the idempotence run starting from the empty cloud. -/
theorem claim_C7_witness :
    ∃ (cloud2 : Cloud) (i : Nat),
      OsKeystoneService.ensure_service_exists emptyCloud "glance" "image" "d" false
        = ([ApiCall.listServices, ApiCall.createService "glance" "image" "d"],
           Except.ok (cloud2, true, some i))
    ∧ OsKeystoneService.ensure_service_exists cloud2 "glance" "image" "d" false
        = ([ApiCall.listServices], Except.ok (cloud2, false, some i)) :=
  claim_C7 emptyCloud "glance" "image" "d" (by rfl)

/-- C5: one poll step of `stack_operation` behaves per status — a status
matching the operation's COMPLETE suffix terminates with the success
outcome and no further sleep; a FAILED status terminates immediately
with the failure outcome and no further polling; any other status
prepends one fixed 5-unit sleep and continues the loop with the
sentinel recorded.  The two concrete scripted runs of the claim follow:
two pending polls then completion sleeps exactly twice, and an
immediately failed status fails with zero sleeps. -/
theorem claim_C5 :
    (∀ (op : String) (rest : List Heat.PollResult) (existed : List String),
       Heat.stack_operation_loop (Heat.PollResult.status (op ++ "_COMPLETE") :: rest) op existed
         = some (Heat.StackResult.changedOutput ("Stack " ++ op ++ " complete"), []))
  ∧ (∀ (op s : String) (rest : List Heat.PollResult) (existed : List String),
       (op ++ "_COMPLETE" == s) = false → (op ++ "_FAILED" == s) = true →
       Heat.stack_operation_loop (Heat.PollResult.status s :: rest) op existed
         = some (Heat.StackResult.failedOutput ("Stack " ++ op ++ " failed"), []))
  ∧ (∀ (op s : String) (rest : List Heat.PollResult) (existed : List String),
       (op ++ "_COMPLETE" == s) = false → (op ++ "_FAILED" == s) = false →
       Heat.stack_operation_loop (Heat.PollResult.status s :: rest) op existed
         = (Heat.stack_operation_loop rest op ("yes" :: existed)).map
             (fun p => (p.1, 5 :: p.2)))
  ∧ Heat.stack_operation
        [Heat.PollResult.status "PENDING", Heat.PollResult.status "PENDING",
         Heat.PollResult.status "CREATE_COMPLETE"] "CREATE"
      = some (Heat.StackResult.changedOutput "Stack CREATE complete", [5, 5])
  ∧ Heat.stack_operation [Heat.PollResult.status "CREATE_FAILED"] "CREATE"
      = some (Heat.StackResult.failedOutput "Stack CREATE failed", []) := by
  refine ⟨?_, ?_, ?_, rfl, rfl⟩
  · intro op rest existed
    simp [Heat.stack_operation_loop]
  · intro op s rest existed hc hf
    simp [Heat.stack_operation_loop, hc, hf]
  · intro op s rest existed hc hf
    simp [Heat.stack_operation_loop, hc, hf]

/-- C5 witness: each step shape at a concrete status, with the step
hypotheses discharged by computation. -/
theorem claim_C5_witness :
    Heat.stack_operation_loop [Heat.PollResult.status "CREATE_COMPLETE"] "CREATE" []
      = some (Heat.StackResult.changedOutput "Stack CREATE complete", [])
  ∧ Heat.stack_operation_loop [Heat.PollResult.status "CREATE_FAILED"] "CREATE" []
      = some (Heat.StackResult.failedOutput "Stack CREATE failed", [])
  ∧ Heat.stack_operation_loop [Heat.PollResult.status "PENDING"] "CREATE" []
      = (Heat.stack_operation_loop [] "CREATE" ["yes"]).map (fun p => (p.1, 5 :: p.2)) :=
  ⟨claim_C5.1 "CREATE" [] [],
   claim_C5.2.1 "CREATE" "CREATE_FAILED" [] [] (by decide) (by decide),
   claim_C5.2.2.1 "CREATE" "PENDING" [] [] (by decide) (by decide)⟩

/-- C8: evaluation of the heat module prologue at the failing inputs.
With an empty-string credential among the environment values the module
prints its message and still proceeds to `main()` — no fatal failure
occurs before resource work; and with all four variables unset
(`os.getenv` returning `None`) the emptiness test does not even fire,
so the module proceeds silently. -/
theorem claim_C8_bug :
    Heat.heat_module_prologue (some "") (some "secret") (some "tenant") (some "http://auth")
      = [Heat.HeatAction.printed
           "system environment variables are required for keystone authentication",
         Heat.HeatAction.proceedToMain]
  ∧ Heat.heat_module_prologue none none none none = [Heat.HeatAction.proceedToMain] :=
  ⟨rfl, rfl⟩

/-- C9: in check mode the Keystone service and endpoint modules never
report `failed=true`: every exception of the attempt — cloud
construction failures included, as the quantified conjuncts show, and
ambiguity or missing-service lookups in particular, as the two concrete
conjuncts show — is caught and turned into a successful exit with
`changed=true` and a message; with check mode off the same exceptions
produce the `fail_json` report. -/
theorem claim_C9 :
    (∀ (cr : Except PyErr Cloud) (n t d st : String),
       (OsKeystoneService.main cr n t d st true).1.isFailed = false)
  ∧ (∀ (cr : Except PyErr Cloud) (sn : String) (r : Option String) (pu : String)
       (iu au : Option String) (st : String),
       (OsKeystoneEndpoint.main cr sn r pu iu au st true).1.isFailed = false)
  ∧ (∀ (e : PyErr) (n t d st : String),
       OsKeystoneService.main (Except.error e) n t d st true
         = (ModuleExit.exitJson (some true) none (some ("exception: " ++ e.msg)), [])
       ∧ OsKeystoneService.main (Except.error e) n t d st false
         = (ModuleExit.failJson ("exception: " ++ e.msg), []))
  ∧ (∀ (e : PyErr) (sn : String) (r : Option String) (pu : String) (iu au : Option String)
       (st : String),
       OsKeystoneEndpoint.main (Except.error e) sn r pu iu au st true
         = (ModuleExit.exitJson (some true) none (some ("exception: " ++ e.msg)), [])
       ∧ OsKeystoneEndpoint.main (Except.error e) sn r pu iu au st false
         = (ModuleExit.failJson ("exception: " ++ e.msg), []))
  ∧ OsKeystoneService.main (Except.ok twoGlanceCloud) "glance" "image" "d" "present" true
      = (ModuleExit.exitJson (some true) none (some "exception: 2 services with name glance"),
         [ApiCall.listServices])
  ∧ OsKeystoneEndpoint.main (Except.ok emptyCloud) "glance" (some "r") "p" none none "present" true
      = (ModuleExit.exitJson (some true) none
           (some "exception: No keystone services with name glance"),
         [ApiCall.listServices]) := by
  refine ⟨?_, ?_, ?_, ?_, rfl, rfl⟩
  · intro cr n t d st
    exact module_report_check_not_failed _
  · intro cr sn r pu iu au st
    exact module_report_check_not_failed _
  · intro e n t d st
    exact ⟨rfl, rfl⟩
  · intro e sn r pu iu au st
    exact ⟨rfl, rfl⟩

/-- C10: both endpoint reconcilers resolve the service by name first;
when no service carries the name, each raises the `KeyError` with only
the service list call in its trace — no endpoint listing, creation or
deletion ever happens, and the error result leaves the cloud untouched. -/
theorem claim_C10 (cloud : Cloud) (sn : String) (region : Option String) (pu : String)
    (iu au : Option String) (cm : Bool)
    (h : cloud.services.filter (fun x => x.name == sn) = []) :
    OsKeystoneEndpoint.ensure_endpoint_exists cloud sn region pu iu au cm
      = ([ApiCall.listServices],
         Except.error (PyErr.keyError ("No keystone services with name " ++ sn)))
  ∧ OsKeystoneEndpoint.ensure_endpoint_absent cloud sn region pu iu au cm
      = ([ApiCall.listServices],
         Except.error (PyErr.keyError ("No keystone services with name " ++ sn))) := by
  have hg := OsKeystoneEndpoint.ep_get_service_nil cloud sn h
  constructor
  · simp [OsKeystoneEndpoint.ensure_endpoint_exists, hg]
  · simp [OsKeystoneEndpoint.ensure_endpoint_absent, hg]

/-- C10 witness: the claim at the empty cloud, in both modes via the
non-check instance. -/
theorem claim_C10_witness :
    OsKeystoneEndpoint.ensure_endpoint_exists emptyCloud "glance" (some "aw1") "pub" none none false
      = ([ApiCall.listServices],
         Except.error (PyErr.keyError "No keystone services with name glance"))
  ∧ OsKeystoneEndpoint.ensure_endpoint_absent emptyCloud "glance" (some "aw1") "pub" none none false
      = ([ApiCall.listServices],
         Except.error (PyErr.keyError "No keystone services with name glance")) :=
  claim_C10 emptyCloud "glance" (some "aw1") "pub" none none false (by rfl)
